import Mathlib

/-!
Verification of the H3-hexagon spatial aggregation and scoring engine shared by
the NASA temperature-projection, NOAA sea-level-rise and urban-heat-island
services (`nasa_climate.py`, `noaa_sea_level.py`, `urban_heat_island.py`, and
their HTTP wrapper `climate_server.py`).

Modelling conventions:
* Python floats are modelled as exact rationals (`ℚ`) where the code is pure
  arithmetic, and as reals (`ℝ`) where the code uses transcendental functions
  (`** 0.7`, `np.exp`) whose mathematical content matters to a claim.
* The library sine/cosine (`np.sin`, `np.cos`) appear only inside deterministic
  noise terms; they are modelled as explicit function parameters (`sinF`,
  `cosF`), so every theorem quantifies over the interpretation of the
  trigonometric primitives.
* The H3 library (`geo_to_cells`, `cell_to_latlng`, `cell_to_boundary`) is
  external to the repository; grids are passed in as explicit cell lists.
-/

namespace UrbanStudio

/-- A hexagonal grid cell as delivered by the H3 library: an opaque id, a
center returned by `cell_to_latlng` as (lat, lon), and a boundary returned by
`cell_to_boundary` as a list of (lat, lon) pairs. -/
structure Cell where
  id : String
  lat : ℚ
  lon : ℚ
  boundary : List (ℚ × ℚ)
deriving DecidableEq

/-- Python `round(x, 2)`: the value rounded to two decimal places. -/
def round2 (q : ℚ) : ℚ := (round (q * 100) : ℚ) / 100

/-! ## NOAA sea-level service (`noaa_sea_level.py`) -/

/-- `noaa_sea_level.py` line 117: the NYC/Long Island coastal zone test
`40.4 <= lat <= 40.9 and -74.3 <= lon <= -73.7`. -/
def isNYCCoastal (lat lon : ℚ) : Bool :=
  decide (40.4 ≤ lat ∧ lat ≤ 40.9 ∧ (-74.3) ≤ lon ∧ lon ≤ (-73.7))

/-- `noaa_sea_level.py` line 120: the Miami coastal zone test
`25.6 <= lat <= 25.9 and -80.3 <= lon <= -80.1`. -/
def isMiamiCoastal (lat lon : ℚ) : Bool :=
  decide (25.6 ≤ lat ∧ lat ≤ 25.9 ∧ (-80.3) ≤ lon ∧ lon ≤ (-80.1))

/-- `noaa_sea_level.py` line 123: the SF Bay coastal zone test
`37.4 <= lat <= 37.9 and -122.6 <= lon <= -122.2`. -/
def isSFCoastal (lat lon : ℚ) : Bool :=
  decide (37.4 ≤ lat ∧ lat ≤ 37.9 ∧ (-122.6) ≤ lon ∧ lon ≤ (-122.2))

/-- `NOAASeaLevelService._simulate_flood_depth` (`noaa_sea_level.py` lines
104-160), with `np.sin` abstracted as `sinF`.  Outside the three coastal
rectangles it returns 0; inside, a longitude-based distance factor is computed
(region checks in the source's `if/elif` order), depth decays linearly with
normalized distance, sine-hash noise is added, and the result is clamped to
`max(0, min(max_feet, depth))`. -/
def simulateFloodDepth (sinF : ℚ → ℚ) (lat lon maxFeet : ℚ) : ℚ :=
  if isNYCCoastal lat lon || isMiamiCoastal lat lon || isSFCoastal lat lon then
    let distanceFactor : ℚ :=
      if isNYCCoastal lat lon then |lon + 74.0| / 0.3
      else if isMiamiCoastal lat lon then |lon + 80.2| / 0.1
      else if isSFCoastal lat lon then |lon + 122.4| / 0.2
      else 1.0
    if 0.1 < distanceFactor then 0
    else
      let normalizedDistance := distanceFactor / 0.1
      let depth := maxFeet * (1 - normalizedDistance * 0.8)
      let seed := sinF ((lat * 17.23 + lon * 41.17) * 0.0174533) * 43758.5453
      let noise := (seed - (⌊seed⌋ : ℚ) - 0.5) * 0.5
      max 0 (min maxFeet (depth + noise))
  else 0

/-- A record built by `NOAASeaLevelService._generate_hexagons_with_depth`
(`noaa_sea_level.py` lines 73-79) for each flooded cell. -/
structure SeaHexagon where
  hexId : String
  center : ℚ × ℚ
  boundary : List (ℚ × ℚ)
  depthFt : ℚ
  depthM : ℚ
deriving DecidableEq

/-- The record `_generate_hexagons_with_depth` appends for a cell with positive
depth (`noaa_sea_level.py` lines 73-79): center flipped to (lon, lat), depth
rounded to 2 decimals in feet and metres. -/
def mkSeaHexagon (c : Cell) (depth : ℚ) : SeaHexagon :=
  { hexId := c.id
    center := (c.lon, c.lat)
    boundary := c.boundary
    depthFt := round2 depth
    depthM := round2 (depth * 0.3048) }

/-- `NOAASeaLevelService._generate_hexagons_with_depth` (`noaa_sea_level.py`
lines 48-81) over an explicit H3 cell list: computes the simulated depth at
each cell center and keeps only cells with `depth > 0`. -/
def generateHexagonsWithDepth (sinF : ℚ → ℚ) (cells : List Cell) (feet : ℚ) :
    List SeaHexagon :=
  cells.filterMap (fun c =>
    let depth := simulateFloodDepth sinF c.lat c.lon feet
    if 0 < depth then some (mkSeaHexagon c depth) else none)

/-! ## Shared GeoJSON ring serialization

All three services close their polygon rings with the same two lines:
`coords = [[lon, lat] for lat, lon in boundary]; coords.append(coords[0])`
(`nasa_climate.py` lines 210-212, `noaa_sea_level.py` lines 167-169,
`urban_heat_island.py` lines 128-129). -/

/-- The ring construction shared by the three serializers: flip every
boundary vertex from (lat, lon) to (lon, lat) and append the first flipped
vertex again.  Python's `coords[0]` raises on an empty boundary, modelled as
`none`. -/
def closeRing {α : Type} (boundary : List (α × α)) : Option (List (α × α)) :=
  match boundary with
  | [] => none
  | b :: rest =>
    some (((b :: rest).map (fun p => (p.2, p.1))) ++ [(b.2, b.1)])

/-! ## NASA climate service (`nasa_climate.py`) -/

/-- A JSON-ish property value. -/
inductive JVal where
  | str : String → JVal
  | num : ℚ → JVal
deriving DecidableEq

/-- `NASAClimateService.SCENARIOS.get(scenario, 'ssp245')` (`nasa_climate.py`
lines 33-37 and 76/307): RCP names map to SSP names, anything else to the
moderate `ssp245`. -/
def sspOf (s : String) : String :=
  if s = "rcp26" then "ssp126"
  else if s = "rcp45" then "ssp245"
  else if s = "rcp85" then "ssp585"
  else "ssp245"

/-- The scenario table of `_generate_simulated_data` (`nasa_climate.py` lines
254-260): (increase2050, increase2100) per scenario, defaulting to the
`rcp45` entry for unknown names. -/
def scenarioConfig (s : String) : ℚ × ℚ :=
  if s = "rcp26" then (1.5, 2.0)
  else if s = "rcp45" then (2.0, 3.2)
  else if s = "rcp85" then (2.5, 4.8)
  else (2.0, 3.2)

/-- `year_progress = max(0, min(1, (year - 2025) / (2100 - 2025)))`
(`nasa_climate.py` line 261). -/
def yearProgress (year : ℚ) : ℚ := max 0 (min 1 ((year - 2025) / (2100 - 2025)))

/-- `projected_increase` (`nasa_climate.py` lines 262-263): linear
interpolation between the scenario's 2050 and 2100 increases. -/
def projectedIncrease (s : String) (year : ℚ) : ℚ :=
  (scenarioConfig s).1 +
    ((scenarioConfig s).2 - (scenarioConfig s).1) * yearProgress year

/-- Polar-amplification term (`nasa_climate.py` line 275): two-piece linear in
`abs(lat) / 45`. -/
def latEffect (lat : ℚ) : ℚ :=
  if 45 < |lat| then |lat| / 45 * 1.8 else |lat| / 45 * 0.8

/-- The location-only modifiers of `_generate_simulated_data` (`nasa_climate.py`
lines 275-289): polar amplification, coastal and continental sinusoids, three
noise sinusoids and the urban-heat-island bump, with `np.sin`/`np.cos`
abstracted as `sinF`/`cosF`. -/
def spatialTerms (sinF cosF : ℚ → ℚ) (lat lon : ℚ) : ℚ :=
  latEffect lat
    + sinF (lon * 2.5 + lat * 1.7) * 0.3
    + cosF (lat * 3.2 - lon * 2.1) * 0.4
    + sinF (lat * 7.13 + lon * 5.27) * cosF (lat * 3.97 - lon * 8.41) * 0.5
    + sinF (lat * 13.71 - lon * 11.39) * cosF (lat * 19.13 + lon * 7.23) * 0.25
    + sinF (lat * 23.45 + lon * 17.83) * 0.15
    + |sinF (lat * 43.7) * cosF (lon * 51.3)| * 0.6

/-- The simulated per-cell temperature anomaly (`nasa_climate.py` lines
292-297): base projected increase plus the location-only terms. -/
def tempAnomaly (sinF cosF : ℚ → ℚ) (lat lon year : ℚ) (scenario : String) : ℚ :=
  projectedIncrease scenario year + spatialTerms sinF cosF lat lon

/-- One feature of the NASA FeatureCollection as assembled by `_to_geojson`
(`nasa_climate.py` lines 209-230). -/
structure TempFeature where
  ring : Option (List (ℚ × ℚ))
  tempAnomaly : ℚ
  tempAnomalyF : ℚ
  baseline : ℚ
  projected : ℚ
  center : ℚ × ℚ
  hexId : String
  srcLabel : String
deriving DecidableEq

/-- Build the feature for one cell: the simulated anomaly is rounded to 2
decimals (`nasa_climate.py` lines 303-304), Fahrenheit uses the factor 1.8,
`projected` re-rounds `baseline + rounded anomaly` (line 224), and the ring is
the closed (lon, lat) boundary. -/
def mkTempFeature (sinF cosF : ℚ → ℚ) (year : ℚ) (scenario : String)
    (c : Cell) : TempFeature :=
  { ring := closeRing c.boundary
    tempAnomaly := round2 (tempAnomaly sinF cosF c.lat c.lon year scenario)
    tempAnomalyF := round2 (tempAnomaly sinF cosF c.lat c.lon year scenario * 1.8)
    baseline := 14.5
    projected :=
      round2 (14.5 + round2 (tempAnomaly sinF cosF c.lat c.lon year scenario))
    center := (c.lon, c.lat)
    hexId := c.id
    srcLabel := "NASA NEX-GDDP-CMIP6 (ACCESS-CM2)" }

/-- The NASA FeatureCollection: features plus the top-level `properties`
dictionary of `_to_geojson` (`nasa_climate.py` lines 232-244), modelled as an
association list in the source's key order.  `datetime.utcnow` is an ambient
input, passed as `timestamp`. -/
structure TempFC where
  features : List TempFeature
  properties : List (String × JVal)
deriving DecidableEq

/-- `NASAClimateService._generate_simulated_data` (`nasa_climate.py` lines
246-308) over an explicit H3 cell list. -/
def generateSimulatedData (sinF cosF : ℚ → ℚ) (cells : List Cell) (year : ℚ)
    (scenario : String) (timestamp : String) : TempFC :=
  { features := cells.map (mkTempFeature sinF cosF year scenario)
    properties := [
      ("source", JVal.str ("NASA NEX-GDDP-CMIP6")),
      ("model", JVal.str ("ACCESS-CM2")),
      ("scenario", JVal.str scenario),
      ("ssp_scenario", JVal.str (sspOf scenario)),
      ("year", JVal.num year),
      ("baselinePeriod", JVal.str ("1986-2005")),
      ("timestamp", JVal.str timestamp)] }

/-- `NASAClimateService.get_temperature_projection` (`nasa_climate.py` lines
52-122): with `use_simulated` it returns the simulated data directly; else it
runs the real-data retrieval, whose whole outcome (the `try` block) is the
explicit argument `realResult`, and on any exception falls back to the
simulated generator. -/
def getTemperatureProjection (sinF cosF : ℚ → ℚ) (cells : List Cell)
    (year : ℚ) (scenario timestamp : String) (useSimulated : Bool)
    (realResult : Except String TempFC) : TempFC :=
  if useSimulated then
    generateSimulatedData sinF cosF cells year scenario timestamp
  else
    match realResult with
    | Except.ok fc => fc
    | Except.error _ => generateSimulatedData sinF cosF cells year scenario timestamp

/-- `climate_server.py` line 147: the HTTP envelope's `using_real_data`
metadata field is the *requested* `use_real_data` query flag, copied verbatim,
regardless of which path actually produced the data. -/
def temperatureResponseUsingRealData (useRealData : Bool) : Bool := useRealData

/-- Mean of `tempAnomaly` over a FeatureCollection's features (the quantity
the end-to-end scenario-ordering property is stated about). -/
def meanTempAnomaly (fc : TempFC) : ℚ :=
  (fc.features.map (fun f => f.tempAnomaly)).sum / (fc.features.length : ℚ)

/-! ## Urban heat island service (`urban_heat_island.py`)

The intensity formula uses a real power `** 0.7` and `np.exp`, so this
component is modelled over `ℝ`; the sine-hash noise keeps `np.sin` abstract
(`sinF`). -/

/-- A request bounding box: north/south/east/west in degrees. -/
structure Bounds where
  north : ℝ
  south : ℝ
  east : ℝ
  west : ℝ

/-- `center_lat = (bounds['north'] + bounds['south']) / 2`
(`urban_heat_island.py` line 38). -/
noncomputable def centerLat (b : Bounds) : ℝ := (b.north + b.south) / 2

/-- `center_lon = (bounds['east'] + bounds['west']) / 2`
(`urban_heat_island.py` line 39). -/
noncomputable def centerLon (b : Bounds) : ℝ := (b.east + b.west) / 2

/-- Euclidean degree-space distance from the bounding-box centroid
(`urban_heat_island.py` line 50). -/
noncomputable def distFromCenter (b : Bounds) (lat lon : ℝ) : ℝ :=
  Real.sqrt ((lat - centerLat b) ^ 2 + (lon - centerLon b) ^ 2)

/-- The in-core heat-island trend with the noise term removed
(`urban_heat_island.py` line 59):
`intensity = 4.5 * (1 - (dist / 0.15) ** 0.7)`. -/
noncomputable def heatTrend (d : ℝ) : ℝ := 4.5 * (1 - (d / 0.15) ^ (0.7 : ℝ))

/-- The unclamped heat-island intensity at a point (`urban_heat_island.py`
lines 50-69): in-core power-law trend or exponential decay outside the core
radius 0.15, plus sine-hash noise scaled by 0.8. -/
noncomputable def heatIntensityRaw (sinF : ℝ → ℝ) (b : Bounds)
    (lat lon : ℝ) : ℝ :=
  let d := distFromCenter b lat lon
  let base :=
    if d < 0.15 then heatTrend d
    else 4.5 * 0.3 * Real.exp (-(d - 0.15) / 0.1)
  let seed := sinF ((lat * 23.14 + lon * 37.19) * 0.0174533) * 43758.5453
  let noise := (seed - (⌊seed⌋ : ℝ)) * 2 - 1
  base + noise * 0.8

/-- The clamped intensity `max(0, min(6.0, intensity))`
(`urban_heat_island.py` line 72). -/
noncomputable def heatIntensity (sinF : ℝ → ℝ) (b : Bounds)
    (lat lon : ℝ) : ℝ :=
  max 0 (min 6.0 (heatIntensityRaw sinF b lat lon))

/-- `UrbanHeatIslandService._classify_level` (`urban_heat_island.py` lines
107-118). -/
noncomputable def classifyLevel (i : ℝ) : String :=
  if i < 0.5 then "none"
  else if i < 1.5 then "low"
  else if i < 3.0 then "moderate"
  else if i < 4.5 then "high"
  else "extreme"

/-- The level attached to a cell (`urban_heat_island.py` line 79): the
classification of the clamped (unrounded) intensity. -/
noncomputable def heatLevel (sinF : ℝ → ℝ) (b : Bounds) (lat lon : ℝ) : String :=
  classifyLevel (heatIntensity sinF b lat lon)

/-! ## Grid provider (resolution validation, claim C1) -/

/-- The error kinds of the Grid Provider contract. -/
inductive GridError where
  | invalidParameter
deriving DecidableEq

/-- Modelled from the spec: the H3 library's `geo_to_cells` is external to the
repository (only its callers are under `src/`); per the Grid Provider
contract it fails with an `InvalidParameter` error when the resolution is
outside [0, 15], and otherwise returns the cell set covering the bounding
box, abstracted here as `cells res`. -/
def h3GeoToCells (cells : ℤ → List String) (res : ℤ) :
    Except GridError (List String) :=
  if 0 ≤ res ∧ res ≤ 15 then Except.ok (cells res)
  else Except.error GridError.invalidParameter

/-- `NASAClimateService._get_hexagons_in_bounds` (`nasa_climate.py` lines
186-203): passes the caller's resolution to `geo_to_cells` unchanged. -/
def nasaHexagonsInBounds (cells : ℤ → List String) (res : ℤ) :
    Except GridError (List String) :=
  h3GeoToCells cells res

/-- `NOAASeaLevelService._get_hexagons_in_bounds` (`noaa_sea_level.py` lines
83-102): passes the caller's resolution to `geo_to_cells` unchanged. -/
def noaaHexagonsInBounds (cells : ℤ → List String) (res : ℤ) :
    Except GridError (List String) :=
  h3GeoToCells cells res

/-- `urban_heat_island.py` line 31:
`resolution = max(0, min(15, resolution))` in `get_heat_island_data`. -/
def heatIslandClampedResolution (res : ℤ) : ℤ := max 0 (min 15 res)

/-- The grid lookup performed by `get_heat_island_data`
(`urban_heat_island.py` lines 31 and 35): the resolution is clamped into
[0, 15] before `_get_hexagons_in_bounds` hands it to `geo_to_cells`. -/
def heatIslandHexagonsInBounds (cells : ℤ → List String) (res : ℤ) :
    Except GridError (List String) :=
  h3GeoToCells cells (heatIslandClampedResolution res)

/-- Helper: outside all three coastal rectangles the simulated depth is 0. -/
lemma floodDepth_outside_eq_zero (sinF : ℚ → ℚ) (lat lon maxFeet : ℚ)
    (hnyc : isNYCCoastal lat lon = false)
    (hmia : isMiamiCoastal lat lon = false)
    (hsf : isSFCoastal lat lon = false) :
    simulateFloodDepth sinF lat lon maxFeet = 0 := by
  unfold simulateFloodDepth
  rw [hnyc, hmia, hsf]
  rfl

/-- Helper: for a nonnegative cap the simulated depth lies in `[0, max_feet]`. -/
lemma floodDepth_between (sinF : ℚ → ℚ) (lat lon maxFeet : ℚ)
    (hf : 0 ≤ maxFeet) :
    0 ≤ simulateFloodDepth sinF lat lon maxFeet ∧
      simulateFloodDepth sinF lat lon maxFeet ≤ maxFeet := by
  unfold simulateFloodDepth
  dsimp only
  split_ifs <;>
    first
      | exact ⟨le_refl 0, hf⟩
      | exact ⟨le_max_left 0 _, max_le hf (min_le_left _ _)⟩

/-- Helper: `round(·, 2)` is monotone. -/
lemma round2_mono {a b : ℚ} (h : a ≤ b) : round2 a ≤ round2 b := by
  unfold round2
  have h2 : round (a * 100) ≤ round (b * 100) := by
    rw [round_eq, round_eq]
    exact Int.floor_mono (by linarith)
  have h3 : ((round (a * 100) : ℤ) : ℚ) ≤ ((round (b * 100) : ℤ) : ℚ) := by
    exact_mod_cast h2
  linarith

/-- Helper: `round2` fixes 0 and 3. -/
lemma round2_zero_and_three : round2 0 = 0 ∧ round2 3 = 3 := by
  constructor
  · simp [round2]
  · have h : ((3 : ℚ) * 100) = ((300 : ℤ) : ℚ) := by norm_num
    rw [round2, h, round_intCast]
    norm_num

/-- Helper: membership in the generated sea-level hexagon list comes from a
source cell with strictly positive simulated depth. -/
lemma mem_generateHexagonsWithDepth {sinF : ℚ → ℚ} {cells : List Cell}
    {feet : ℚ} {s : SeaHexagon}
    (hs : s ∈ generateHexagonsWithDepth sinF cells feet) :
    ∃ c ∈ cells, 0 < simulateFloodDepth sinF c.lat c.lon feet ∧
      s = mkSeaHexagon c (simulateFloodDepth sinF c.lat c.lon feet) := by
  rw [generateHexagonsWithDepth, List.mem_filterMap] at hs
  obtain ⟨c, hc, hfc⟩ := hs
  by_cases hpos : 0 < simulateFloodDepth sinF c.lat c.lon feet
  · rw [if_pos hpos] at hfc
    exact ⟨c, hc, hpos, (Option.some_injective _ hfc).symm⟩
  · rw [if_neg hpos] at hfc
    exact absurd hfc (Option.noConfusion)

/-- Claim C3: for every (lat, lon) outside all three hard-coded coastal
rectangles (NYC/Long Island, Miami, SF Bay) and every `max_feet`,
`_simulate_flood_depth` returns exactly 0, whatever the sine primitive is. -/
theorem floodDepth_zero_outside_regions (sinF : ℚ → ℚ) (lat lon maxFeet : ℚ)
    (hnyc : isNYCCoastal lat lon = false)
    (hmia : isMiamiCoastal lat lon = false)
    (hsf : isSFCoastal lat lon = false) :
    simulateFloodDepth sinF lat lon maxFeet = 0 :=
  floodDepth_outside_eq_zero sinF lat lon maxFeet hnyc hmia hsf

/-- Witness for C3: the point (0, 0) lies outside all three rectangles and the
simulated depth there is 0 (with `max_feet = 5`). -/
theorem floodDepth_zero_outside_regions_witness :
    isNYCCoastal 0 0 = false ∧ isMiamiCoastal 0 0 = false ∧
      isSFCoastal 0 0 = false ∧
      simulateFloodDepth (fun _ => 0) 0 0 5 = 0 :=
  ⟨by norm_num [isNYCCoastal], by norm_num [isMiamiCoastal],
    by norm_num [isSFCoastal],
    floodDepth_zero_outside_regions (fun _ => 0) 0 0 5
      (by norm_num [isNYCCoastal]) (by norm_num [isMiamiCoastal])
      (by norm_num [isSFCoastal])⟩

/-- Counterexample for C8 as stated: the claim quantifies over every
`max_feet`, but for `max_feet = -1` the point (0, 0) yields depth 0, which is
not in the (empty) interval `[0, -1]`. -/
theorem floodDepth_range_counterexample :
    simulateFloodDepth (fun _ => 0) 0 0 (-1) = 0 ∧
      ¬ simulateFloodDepth (fun _ => 0) 0 0 (-1) ≤ (-1 : ℚ) := by
  have h0 : simulateFloodDepth (fun _ => 0) 0 0 (-1) = 0 :=
    floodDepth_outside_eq_zero (fun _ => 0) 0 0 (-1)
      (by norm_num [isNYCCoastal]) (by norm_num [isMiamiCoastal])
      (by norm_num [isSFCoastal])
  refine ⟨h0, ?_⟩
  rw [h0]
  norm_num

/-- Claim C8 (amended): for every (lat, lon) and every `max_feet ≥ 0` the
value returned by `_simulate_flood_depth` lies in `[0, max_feet]`; every
feature in the sea-level FeatureCollection has its `depth_ft` (the depth
rounded to 2 decimals) in `[0, round2 feet]`; in particular for the example
call with `feet = 3` every feature's `depth_ft` is in `[0, 3]`. -/
theorem floodDepth_range (sinF : ℚ → ℚ) (cells : List Cell)
    (lat lon maxFeet : ℚ) (hf : 0 ≤ maxFeet) :
    (0 ≤ simulateFloodDepth sinF lat lon maxFeet ∧
      simulateFloodDepth sinF lat lon maxFeet ≤ maxFeet) ∧
    (∀ s ∈ generateHexagonsWithDepth sinF cells maxFeet,
      0 ≤ s.depthFt ∧ s.depthFt ≤ round2 maxFeet) ∧
    (∀ s ∈ generateHexagonsWithDepth sinF cells 3,
      0 ≤ s.depthFt ∧ s.depthFt ≤ 3) := by
  refine ⟨floodDepth_between sinF lat lon maxFeet hf, ?_, ?_⟩
  · intro s hs
    obtain ⟨c, _, hpos, hrec⟩ := mem_generateHexagonsWithDepth hs
    have hb := floodDepth_between sinF c.lat c.lon maxFeet hf
    subst hrec
    constructor
    · have := round2_mono hb.1
      rwa [round2_zero_and_three.1] at this
    · exact round2_mono hb.2
  · intro s hs
    obtain ⟨c, _, hpos, hrec⟩ := mem_generateHexagonsWithDepth hs
    have hb := floodDepth_between sinF c.lat c.lon 3 (by norm_num)
    subst hrec
    constructor
    · have := round2_mono hb.1
      rwa [round2_zero_and_three.1] at this
    · have := round2_mono hb.2
      rwa [round2_zero_and_three.2] at this

/-- Witness for C8 (amended): a concrete instantiation at `max_feet = 5`. -/
theorem floodDepth_range_witness :
    (0 : ℚ) ≤ 5 ∧
      ((0 ≤ simulateFloodDepth (fun _ => 0) 2 3 5 ∧
          simulateFloodDepth (fun _ => 0) 2 3 5 ≤ 5) ∧
        (∀ s ∈ generateHexagonsWithDepth (fun _ => 0) [] 5,
          0 ≤ s.depthFt ∧ s.depthFt ≤ round2 5) ∧
        (∀ s ∈ generateHexagonsWithDepth (fun _ => 0) [] 3,
          0 ≤ s.depthFt ∧ s.depthFt ≤ 3)) :=
  ⟨by norm_num, floodDepth_range (fun _ => 0) [] 2 3 5 (by norm_num)⟩

/-- Claim C10: the sea-level service emits a feature for a cell iff the
simulated depth at its center is strictly positive; depth-0 cells are omitted
entirely, so the feature list is empty when every cell center lies outside the
three coastal rectangles. -/
theorem seaLevel_features_iff_flooded (sinF : ℚ → ℚ) (cells : List Cell)
    (feet : ℚ) :
    generateHexagonsWithDepth sinF cells feet =
      (cells.filter
        (fun c => decide (0 < simulateFloodDepth sinF c.lat c.lon feet))).map
        (fun c => mkSeaHexagon c (simulateFloodDepth sinF c.lat c.lon feet)) ∧
    ((∀ c ∈ cells, isNYCCoastal c.lat c.lon = false ∧
        isMiamiCoastal c.lat c.lon = false ∧ isSFCoastal c.lat c.lon = false) →
      generateHexagonsWithDepth sinF cells feet = []) := by
  have heq : generateHexagonsWithDepth sinF cells feet =
      (cells.filter
        (fun c => decide (0 < simulateFloodDepth sinF c.lat c.lon feet))).map
        (fun c => mkSeaHexagon c (simulateFloodDepth sinF c.lat c.lon feet)) := by
    induction cells with
    | nil => rfl
    | cons c cs ih =>
      by_cases hpos : 0 < simulateFloodDepth sinF c.lat c.lon feet
      · simp [generateHexagonsWithDepth, List.filterMap_cons, List.filter_cons,
          hpos] at ih ⊢
        exact ih
      · simp [generateHexagonsWithDepth, List.filterMap_cons, List.filter_cons,
          hpos] at ih ⊢
        exact ih
  refine ⟨heq, fun hout => ?_⟩
  rw [heq]
  have hfil : cells.filter
      (fun c => decide (0 < simulateFloodDepth sinF c.lat c.lon feet)) = [] := by
    rw [List.filter_eq_nil_iff]
    intro c hc
    obtain ⟨h1, h2, h3⟩ := hout c hc
    rw [floodDepth_outside_eq_zero sinF c.lat c.lon feet h1 h2 h3]
    simp
  rw [hfil]
  rfl

/-- Witness for C10: a single inland cell (center (0,0)) produces an empty
feature list. -/
theorem seaLevel_features_iff_flooded_witness :
    (∀ c ∈ [Cell.mk "cell" 0 0 []],
        isNYCCoastal c.lat c.lon = false ∧ isMiamiCoastal c.lat c.lon = false ∧
          isSFCoastal c.lat c.lon = false) ∧
      generateHexagonsWithDepth (fun _ => 0) [Cell.mk "cell" 0 0 []] 3 = [] := by
  have hout : ∀ c ∈ [Cell.mk "cell" 0 0 []],
      isNYCCoastal c.lat c.lon = false ∧ isMiamiCoastal c.lat c.lon = false ∧
        isSFCoastal c.lat c.lon = false := by
    intro c hc
    rw [List.mem_singleton] at hc
    subst hc
    exact ⟨by norm_num [isNYCCoastal], by norm_num [isMiamiCoastal],
      by norm_num [isSFCoastal]⟩
  exact ⟨hout,
    (seaLevel_features_iff_flooded (fun _ => 0) [Cell.mk "cell" 0 0 []] 3).2 hout⟩

/-- Counterexample for C2 as stated: with `use_simulated=False` and a failing
real-data path, the returned FeatureCollection's metadata contains no
`using_real_data` key at all (its keys are source, model, scenario,
ssp_scenario, year, baselinePeriod, timestamp). -/
theorem temperature_fallback_counterexample :
    "using_real_data" ∉
      (getTemperatureProjection (fun _ => 0) (fun _ => 0) [] 2050 "rcp45" ""
          false (Except.error ("connection refused"))).properties.map
        Prod.fst := by
  simp [getTemperatureProjection, generateSimulatedData]

/-- Claim C2 (amended): with `use_simulated=False`, any failure of the
real-data path yields the simulated FeatureCollection and no retrieval error
reaches the caller; however the response metadata carries no `using_real_data`
flag, and the HTTP envelope's `using_real_data` field merely echoes the
requested value, so the caller cannot tell from it that the simulated path
ran. -/
theorem temperature_fallback_on_failure (sinF cosF : ℚ → ℚ) (cells : List Cell)
    (year : ℚ) (scenario timestamp e : String) (useRealData : Bool) :
    getTemperatureProjection sinF cosF cells year scenario timestamp false
        (Except.error e) =
      generateSimulatedData sinF cosF cells year scenario timestamp ∧
    "using_real_data" ∉
      (getTemperatureProjection sinF cosF cells year scenario timestamp false
          (Except.error e)).properties.map Prod.fst ∧
    temperatureResponseUsingRealData useRealData = useRealData := by
  refine ⟨rfl, ?_, rfl⟩
  simp [getTemperatureProjection, generateSimulatedData]

/-- Counterexample for C9 as stated: the FeatureCollection for an unknown
scenario is not identical to the one for `rcp45`, because `_to_geojson` echoes
the raw scenario string into the metadata. -/
theorem unknown_scenario_counterexample :
    generateSimulatedData (fun _ => 0) (fun _ => 0) [] 2100 "bogus" "" ≠
      generateSimulatedData (fun _ => 0) (fun _ => 0) [] 2100 "rcp45" "" := by
  intro h
  have hp := congrArg TempFC.properties h
  simp [generateSimulatedData] at hp

/-- Claim C9 (amended): for an unrecognized scenario the generator produces
exactly the features of the `rcp45` (moderate) scenario and the same SSP
mapping; only the echoed `scenario` string in the metadata retains the
caller's input. -/
theorem unknown_scenario_same_features (sinF cosF : ℚ → ℚ) (cells : List Cell)
    (year : ℚ) (s timestamp : String)
    (h1 : s ≠ "rcp26") (h2 : s ≠ "rcp45") (h3 : s ≠ "rcp85") :
    (generateSimulatedData sinF cosF cells year s timestamp).features =
      (generateSimulatedData sinF cosF cells year "rcp45" timestamp).features ∧
    sspOf s = sspOf "rcp45" ∧
    ("scenario", JVal.str s) ∈
      (generateSimulatedData sinF cosF cells year s timestamp).properties := by
  have hc : scenarioConfig s = scenarioConfig "rcp45" := by
    simp [scenarioConfig, h1, h2, h3]
  refine ⟨?_, ?_, ?_⟩
  · simp only [generateSimulatedData]
    refine List.map_congr_left (fun c _ => ?_)
    simp only [mkTempFeature, tempAnomaly, projectedIncrease, hc]
  · simp [sspOf, h1, h2, h3]
  · simp [generateSimulatedData]

/-- Witness for C9 (amended): the concrete unknown scenario string is
compared with the moderate scenario on a one-cell grid. -/
theorem unknown_scenario_same_features_witness :
    ("foo" ≠ "rcp26" ∧ "foo" ≠ "rcp45" ∧ "foo" ≠ "rcp85") ∧
      ((generateSimulatedData (fun _ => 0) (fun _ => 0) [Cell.mk "h" 1 2 []]
            2050 "foo" "t").features =
        (generateSimulatedData (fun _ => 0) (fun _ => 0) [Cell.mk "h" 1 2 []]
            2050 "rcp45" "t").features ∧
      sspOf "foo" = sspOf "rcp45" ∧
      ("scenario", JVal.str ("foo")) ∈
        (generateSimulatedData (fun _ => 0) (fun _ => 0) [Cell.mk "h" 1 2 []]
            2050 "foo" "t").properties) :=
  ⟨⟨by decide, by decide, by decide⟩,
    unknown_scenario_same_features (fun _ => 0) (fun _ => 0)
      [Cell.mk "h" 1 2 []] 2050 "foo" "t" (by decide) (by decide) (by decide)⟩

/-- Helper: rounding to 2 decimals commutes with adding 2.8. -/
lemma round2_add_geq (x : ℚ) : round2 (x + 2.8) = round2 x + 2.8 := by
  unfold round2
  have h : (x + 2.8) * 100 = x * 100 + ((280 : ℤ) : ℚ) := by push_cast; ring
  rw [h, round_add_int]
  push_cast
  ring

/-- Helper: the raw simulated anomaly for `rcp85` at year 2100 is exactly 2.8
degrees above the one for `rcp26`, at every location. -/
lemma tempAnomaly_rcp85_sub_rcp26 (sinF cosF : ℚ → ℚ) (lat lon : ℚ) :
    tempAnomaly sinF cosF lat lon 2100 "rcp85" =
      tempAnomaly sinF cosF lat lon 2100 "rcp26" + 2.8 := by
  have h85 : scenarioConfig "rcp85" = (2.5, 4.8) := by rfl
  have h26 : scenarioConfig "rcp26" = (1.5, 2.0) := by rfl
  unfold tempAnomaly projectedIncrease yearProgress
  rw [h85, h26]
  norm_num
  ring

/-- Helper: summing after adding a constant to each entry. -/
lemma sum_map_add_const (L : List ℚ) (c : ℚ) :
    (L.map (fun q => q + c)).sum = L.sum + (L.length : ℚ) * c := by
  induction L with
  | nil => simp
  | cons a l ih =>
    simp only [List.map_cons, List.sum_cons, ih, List.length_cons]
    push_cast
    ring

/-- Claim C5: for fixed bounds and resolution (a fixed cell list), the
`rcp85`/2100 projection exceeds the `rcp26`/2100 one cell-by-cell by exactly
the base-trend difference 2.8 (the spatial terms depend only on (lat, lon)),
and hence also in the mean over the returned features. -/
theorem rcp85_exceeds_rcp26 (sinF cosF : ℚ → ℚ) (cells : List Cell)
    (ts : String) (hne : cells ≠ []) :
    (∀ lat lon : ℚ, tempAnomaly sinF cosF lat lon 2100 "rcp85" =
        tempAnomaly sinF cosF lat lon 2100 "rcp26" + 2.8) ∧
    (generateSimulatedData sinF cosF cells 2100 "rcp85" ts).features.map
        (fun f => f.tempAnomaly) =
      ((generateSimulatedData sinF cosF cells 2100 "rcp26" ts).features.map
        (fun f => f.tempAnomaly)).map (fun q => q + 2.8) ∧
    meanTempAnomaly (generateSimulatedData sinF cosF cells 2100 "rcp85" ts) =
      meanTempAnomaly (generateSimulatedData sinF cosF cells 2100 "rcp26" ts)
        + 2.8 ∧
    meanTempAnomaly (generateSimulatedData sinF cosF cells 2100 "rcp26" ts) <
      meanTempAnomaly (generateSimulatedData sinF cosF cells 2100 "rcp85" ts) := by
  have hmap : (generateSimulatedData sinF cosF cells 2100 "rcp85" ts).features.map
      (fun f => f.tempAnomaly) =
      ((generateSimulatedData sinF cosF cells 2100 "rcp26" ts).features.map
        (fun f => f.tempAnomaly)).map (fun q => q + 2.8) := by
    simp only [generateSimulatedData, List.map_map]
    refine List.map_congr_left (fun c _ => ?_)
    simp only [Function.comp, mkTempFeature]
    rw [tempAnomaly_rcp85_sub_rcp26, round2_add_geq]
  have hlen : ((generateSimulatedData sinF cosF cells 2100 "rcp26" ts).features.map
      (fun f => f.tempAnomaly)).length = cells.length := by
    simp [generateSimulatedData]
  have hn : (0 : ℚ) < (cells.length : ℚ) := by
    have : cells.length ≠ 0 := fun h => hne (List.length_eq_zero.mp h)
    exact_mod_cast Nat.pos_of_ne_zero this
  have hmean : meanTempAnomaly (generateSimulatedData sinF cosF cells 2100 "rcp85" ts) =
      meanTempAnomaly (generateSimulatedData sinF cosF cells 2100 "rcp26" ts)
        + 2.8 := by
    unfold meanTempAnomaly
    rw [hmap, sum_map_add_const, hlen]
    have hlen85 : (generateSimulatedData sinF cosF cells 2100 "rcp85" ts).features.length
        = cells.length := by simp [generateSimulatedData]
    have hlen26 : (generateSimulatedData sinF cosF cells 2100 "rcp26" ts).features.length
        = cells.length := by simp [generateSimulatedData]
    rw [hlen85, hlen26]
    field_simp
    ring
  exact ⟨tempAnomaly_rcp85_sub_rcp26 sinF cosF, hmap, hmean, by rw [hmean]; linarith⟩

/-- Witness for C5: a concrete one-cell grid. -/
theorem rcp85_exceeds_rcp26_witness :
    [Cell.mk "h" 0 0 []] ≠ [] ∧
      meanTempAnomaly (generateSimulatedData (fun _ => 0) (fun _ => 0)
          [Cell.mk "h" 0 0 []] 2100 "rcp26" "t") <
        meanTempAnomaly (generateSimulatedData (fun _ => 0) (fun _ => 0)
          [Cell.mk "h" 0 0 []] 2100 "rcp85" "t") :=
  ⟨by decide,
    (rcp85_exceeds_rcp26 (fun _ => 0) (fun _ => 0) [Cell.mk "h" 0 0 []] "t"
      (by decide)).2.2.2⟩

/-- Helper: bucket characterization of the `none` level. -/
lemma classifyLevel_none_iff (i : ℝ) : classifyLevel i = "none" ↔ i < 0.5 := by
  unfold classifyLevel
  split_ifs with h1 h2 h3 h4
  · exact iff_of_true rfl h1
  · exact iff_of_false (by decide) h1
  · exact iff_of_false (by decide) h1
  · exact iff_of_false (by decide) h1
  · exact iff_of_false (by decide) h1

/-- Helper: bucket characterization of the `low` level. -/
lemma classifyLevel_low_iff (i : ℝ) :
    classifyLevel i = "low" ↔ 0.5 ≤ i ∧ i < 1.5 := by
  unfold classifyLevel
  split_ifs with h1 h2 h3 h4
  · exact iff_of_false (by decide) (fun hp => absurd h1 (not_lt.mpr hp.1))
  · exact iff_of_true rfl ⟨le_of_not_lt h1, h2⟩
  · exact iff_of_false (by decide) (fun hp => h2 hp.2)
  · exact iff_of_false (by decide) (fun hp => h2 hp.2)
  · exact iff_of_false (by decide) (fun hp => h2 hp.2)

/-- Helper: bucket characterization of the `moderate` level. -/
lemma classifyLevel_moderate_iff (i : ℝ) :
    classifyLevel i = "moderate" ↔ 1.5 ≤ i ∧ i < 3.0 := by
  unfold classifyLevel
  split_ifs with h1 h2 h3 h4
  · exact iff_of_false (by decide)
      (fun hp => absurd (h1.trans (by norm_num)) (not_lt.mpr hp.1))
  · exact iff_of_false (by decide) (fun hp => absurd h2 (not_lt.mpr hp.1))
  · exact iff_of_true rfl ⟨le_of_not_lt h2, h3⟩
  · exact iff_of_false (by decide) (fun hp => h3 hp.2)
  · exact iff_of_false (by decide) (fun hp => h3 hp.2)

/-- Helper: bucket characterization of the `high` level. -/
lemma classifyLevel_high_iff (i : ℝ) :
    classifyLevel i = "high" ↔ 3.0 ≤ i ∧ i < 4.5 := by
  unfold classifyLevel
  split_ifs with h1 h2 h3 h4
  · exact iff_of_false (by decide)
      (fun hp => absurd (h1.trans (by norm_num)) (not_lt.mpr hp.1))
  · exact iff_of_false (by decide)
      (fun hp => absurd (h2.trans (by norm_num)) (not_lt.mpr hp.1))
  · exact iff_of_false (by decide) (fun hp => absurd h3 (not_lt.mpr hp.1))
  · exact iff_of_true rfl ⟨le_of_not_lt h3, h4⟩
  · exact iff_of_false (by decide) (fun hp => h4 hp.2)

/-- Helper: bucket characterization of the `extreme` level. -/
lemma classifyLevel_extreme_iff (i : ℝ) :
    classifyLevel i = "extreme" ↔ 4.5 ≤ i := by
  unfold classifyLevel
  split_ifs with h1 h2 h3 h4
  · exact iff_of_false (by decide)
      (fun hp => absurd (h1.trans (by norm_num)) (not_lt.mpr hp))
  · exact iff_of_false (by decide)
      (fun hp => absurd (h2.trans (by norm_num)) (not_lt.mpr hp))
  · exact iff_of_false (by decide)
      (fun hp => absurd (h3.trans (by norm_num)) (not_lt.mpr hp))
  · exact iff_of_false (by decide) (fun hp => absurd h4 (not_lt.mpr hp))
  · exact iff_of_true rfl (le_of_not_lt h4)

/-- Claim C7: for every (lat, lon), bounds and sine interpretation the clamped
heat-island intensity is in [0, 6], and the level attached to the cell is
exactly the fixed-threshold bucket (0.5 / 1.5 / 3.0 / 4.5) of that clamped
intensity. -/
theorem heatIntensity_range_and_level (sinF : ℝ → ℝ) (b : Bounds)
    (lat lon : ℝ) :
    0 ≤ heatIntensity sinF b lat lon ∧ heatIntensity sinF b lat lon ≤ 6 ∧
    (heatLevel sinF b lat lon = "none" ↔
      heatIntensity sinF b lat lon < 0.5) ∧
    (heatLevel sinF b lat lon = "low" ↔
      0.5 ≤ heatIntensity sinF b lat lon ∧ heatIntensity sinF b lat lon < 1.5) ∧
    (heatLevel sinF b lat lon = "moderate" ↔
      1.5 ≤ heatIntensity sinF b lat lon ∧ heatIntensity sinF b lat lon < 3.0) ∧
    (heatLevel sinF b lat lon = "high" ↔
      3.0 ≤ heatIntensity sinF b lat lon ∧ heatIntensity sinF b lat lon < 4.5) ∧
    (heatLevel sinF b lat lon = "extreme" ↔
      4.5 ≤ heatIntensity sinF b lat lon) := by
  refine ⟨le_max_left 0 _, ?_, classifyLevel_none_iff _, classifyLevel_low_iff _,
    classifyLevel_moderate_iff _, classifyLevel_high_iff _,
    classifyLevel_extreme_iff _⟩
  exact max_le (by norm_num) ((min_le_left _ _).trans (by norm_num))

/-- Claim C6: the noise-free in-core trend is antitone in the distance from
the centroid: for distances `0 ≤ d1 < d2 < 0.15` (both strictly inside the
urban-core radius), `heatTrend d1 ≥ heatTrend d2`. -/
theorem heatTrend_monotone (d1 d2 : ℝ) (h0 : 0 ≤ d1) (h12 : d1 < d2)
    (_hcore : d2 < 0.15) : heatTrend d2 ≤ heatTrend d1 := by
  unfold heatTrend
  have hdiv : (d1 : ℝ) / 0.15 ≤ d2 / 0.15 :=
    div_le_div_of_nonneg_right h12.le (by norm_num)
  have hp : (d1 / 0.15 : ℝ) ^ (0.7 : ℝ) ≤ (d2 / 0.15) ^ (0.7 : ℝ) :=
    Real.rpow_le_rpow (by positivity) hdiv (by norm_num)
  linarith

/-- Witness for C6: concrete distances 0.05 and 0.1 inside the core. -/
theorem heatTrend_monotone_witness :
    (0 : ℝ) ≤ 0.05 ∧ (0.05 : ℝ) < 0.1 ∧ (0.1 : ℝ) < 0.15 ∧
      heatTrend 0.1 ≤ heatTrend 0.05 :=
  ⟨by norm_num, by norm_num, by norm_num,
    heatTrend_monotone 0.05 0.1 (by norm_num) (by norm_num) (by norm_num)⟩

/-- Counterexample for C1 as stated: the urban-heat-island service does not
fail on resolution 20; it clamps it to 15 and succeeds. -/
theorem resolution_clamped_counterexample :
    heatIslandHexagonsInBounds (fun _ => []) 20 = Except.ok [] ∧
      heatIslandHexagonsInBounds (fun _ => []) 20 ≠
        Except.error GridError.invalidParameter := by
  constructor
  · rfl
  · intro h
    exact Except.noConfusion h

/-- Claim C1 (amended): for a resolution outside [0, 15], the NASA and NOAA
services pass it through unclamped and the grid provider fails with
`InvalidParameter`; the urban-heat-island service instead clamps the
resolution into [0, 15] and proceeds without error. -/
theorem grid_resolution_validation (cells : ℤ → List String) (res : ℤ)
    (hres : res < 0 ∨ 15 < res) :
    nasaHexagonsInBounds cells res = Except.error GridError.invalidParameter ∧
    noaaHexagonsInBounds cells res = Except.error GridError.invalidParameter ∧
    heatIslandHexagonsInBounds cells res =
      Except.ok (cells (heatIslandClampedResolution res)) ∧
    0 ≤ heatIslandClampedResolution res ∧
    heatIslandClampedResolution res ≤ 15 := by
  have hnot : ¬(0 ≤ res ∧ res ≤ 15) := by
    rcases hres with h | h
    · exact fun hc => absurd hc.1 (not_le.mpr h)
    · exact fun hc => absurd hc.2 (not_le.mpr h)
  have hcl : 0 ≤ heatIslandClampedResolution res ∧
      heatIslandClampedResolution res ≤ 15 :=
    ⟨le_max_left 0 _, max_le (by norm_num) (min_le_left _ _)⟩
  refine ⟨?_, ?_, ?_, hcl.1, hcl.2⟩
  · unfold nasaHexagonsInBounds h3GeoToCells
    exact if_neg hnot
  · unfold noaaHexagonsInBounds h3GeoToCells
    exact if_neg hnot
  · unfold heatIslandHexagonsInBounds h3GeoToCells
    exact if_pos hcl

/-- Witness for C1 (amended): resolution 20. -/
theorem grid_resolution_validation_witness :
    ((20 : ℤ) < 0 ∨ (15 : ℤ) < 20) ∧
      (nasaHexagonsInBounds (fun _ => []) 20 =
          Except.error GridError.invalidParameter ∧
        noaaHexagonsInBounds (fun _ => []) 20 =
          Except.error GridError.invalidParameter ∧
        heatIslandHexagonsInBounds (fun _ => []) 20 =
          Except.ok ((fun _ => ([] : List String))
            (heatIslandClampedResolution 20)) ∧
        0 ≤ heatIslandClampedResolution 20 ∧
        heatIslandClampedResolution 20 ≤ 15) :=
  ⟨Or.inr (by norm_num),
    grid_resolution_validation (fun _ => []) 20 (Or.inr (by norm_num))⟩

/-- Claim C4: every ring emitted by the shared serializer code (identical in
the three services) over a boundary of at least 3 vertices is defined, has one
more position than the boundary (hence at least 4), is closed (first position
equals last), and carries the boundary's vertices flipped from (lat, lon) to
(lon, lat) in order. -/
theorem ring_closed_flipped {α : Type} (boundary : List (α × α))
    (hb : 3 ≤ boundary.length) :
    ∃ ring, closeRing boundary = some ring ∧
      ring.length = boundary.length + 1 ∧
      4 ≤ ring.length ∧
      ring.head? = ring.getLast? ∧
      ∀ i, i < boundary.length →
        ring[i]? = boundary[i]?.map (fun p => (p.2, p.1)) := by
  match boundary, hb with
  | b :: rest, hb =>
    refine ⟨((b :: rest).map (fun p => (p.2, p.1))) ++ [(b.2, b.1)], rfl,
      ?_, ?_, ?_, ?_⟩
    · simp
    · have hlen : (((b :: rest).map (fun p => (p.2, p.1))) ++
          [(b.2, b.1)]).length = rest.length + 2 := by simp
      rw [hlen]
      simp only [List.length_cons] at hb
      omega
    · rw [List.getLast?_concat]
      simp
    · intro i hi
      rw [List.getElem?_append_left (by simpa using hi)]
      exact List.getElem?_map _ _ _

/-- Witness for C4: a concrete 6-vertex hexagon boundary. -/
theorem ring_closed_flipped_witness :
    3 ≤ ([(1, 2), (3, 4), (5, 6), (7, 8), (9, 10), (11, 12)] :
        List (ℚ × ℚ)).length ∧
      ∃ ring, closeRing ([(1, 2), (3, 4), (5, 6), (7, 8), (9, 10), (11, 12)] :
          List (ℚ × ℚ)) = some ring ∧
        ring.length = ([(1, 2), (3, 4), (5, 6), (7, 8), (9, 10), (11, 12)] :
          List (ℚ × ℚ)).length + 1 ∧
        4 ≤ ring.length ∧
        ring.head? = ring.getLast? ∧
        ∀ i, i < ([(1, 2), (3, 4), (5, 6), (7, 8), (9, 10), (11, 12)] :
            List (ℚ × ℚ)).length →
          ring[i]? = (([(1, 2), (3, 4), (5, 6), (7, 8), (9, 10), (11, 12)] :
            List (ℚ × ℚ))[i]?).map (fun p => (p.2, p.1)) :=
  ⟨by decide, ring_closed_flipped _ (by decide)⟩

end UrbanStudio
